import Mathlib

/-!
Verification of the build-matrix generator in
`get-napi-info/generate-matrix.js` (rspack-toolchain).

The script has two parts:

* `getPlatformConfig(target, napiBuildCommand)` — a pure lookup in a
  hardcoded table of sixteen platform identifiers, returning a
  `{host, target, build}` record or `null`;
* the exported `action` — reads `package.json`, extracts `napi.targets`,
  trims each identifier, resolves each through the table, aggregates the
  unsupported ones, and either fails or emits three outputs
  (`matrix`, `targets`, `binding-directory`).

The embedding below is a direct translation.  File I/O and `JSON.parse`
are external effects, so the action is modelled as a pure function of the
results of those effects: a `Bool` for `fs.existsSync(packageJsonPath)`
and an `Option Json` for the parsed manifest (`none` = parse failure).
Everything after that point is translated statement by statement.

`configs[target]` is JavaScript bracket access, which falls back to the
prototype chain of the object literal: `getPlatformConfig` models the
own-property table only, while `getPlatformConfigJs`, `processTargetsJs`
and `actionJs` keep the full semantics, including the inherited
`Object.prototype` members that `|| null` and the `if (config)`
truthiness test let through as if they were table rows.
-/

/-- A parsed JSON value, the result of `JSON.parse` on the manifest.
Objects carry their field list; `JSON.parse` collapses duplicate keys, so
a parsed object has at most one binding per key. -/
inductive Json where
  | null : Json
  | bool (b : Bool) : Json
  | num (n : Int) : Json
  | str (s : String) : Json
  | arr (elems : List Json) : Json
  | obj (fields : List (String × Json)) : Json

/-- Field lookup in a parsed JSON object,
as in the property accesses `packageJson?.napi` and `napi?.targets`. -/
def lookupField : List (String × Json) → String → Option Json
  | [], _ => none
  | (k, v) :: rest, key => if k = key then some v else lookupField rest key

/-- Optional-chained property access `value?.key`: `undefined` (here `none`)
when the value is not an object or lacks the key. -/
def Json.getField : Json → String → Option Json
  | .obj fields, key => lookupField fields key
  | _, _ => none

/-- JavaScript truthiness of a JSON value, for the `!napiTargets` test:
`null`, `false`, `0` and `""` are falsy; arrays and objects are always
truthy. -/
def jsTruthy : Json → Bool
  | .null => false
  | .bool b => b
  | .num n => n != 0
  | .str s => s != ""
  | .arr _ => true
  | .obj _ => true

/-- One row of the platform table: execution host, echoed target
identifier, and the fully composed build command. -/
structure PlatformConfig where
  host : String
  target : String
  build : String
deriving DecidableEq, Repr

/-- The sixteen-row `configs` object literal of
`getPlatformConfig(target, napiBuildCommand)` as a finite map: `some`
exactly on its own keys, with the build command composed from the
caller's base command.  This is the own-property portion of
`configs[target]`; JavaScript bracket access also falls back to the
prototype chain on a miss, and that fallback, together with the
`|| null`, is added in `getPlatformConfigJs`. -/
def getPlatformConfig (target : String) (napiBuildCommand : String) : Option PlatformConfig :=
  if target = "x86_64-apple-darwin" then
    some { host := "macos-latest", target := "x86_64-apple-darwin",
           build := napiBuildCommand ++ " --target x86_64-apple-darwin" }
  else if target = "x86_64-pc-windows-msvc" then
    some { host := "windows-latest", target := "x86_64-pc-windows-msvc",
           build := napiBuildCommand ++ " --target x86_64-pc-windows-msvc" }
  else if target = "i686-pc-windows-msvc" then
    some { host := "windows-latest", target := "i686-pc-windows-msvc",
           build := napiBuildCommand ++ " --target i686-pc-windows-msvc" }
  else if target = "x86_64-unknown-linux-gnu" then
    some { host := "ubuntu-22.04", target := "x86_64-unknown-linux-gnu",
           build := napiBuildCommand ++ " --target x86_64-unknown-linux-gnu --use-napi-cross" }
  else if target = "x86_64-unknown-linux-musl" then
    some { host := "ubuntu-22.04", target := "x86_64-unknown-linux-musl",
           build := napiBuildCommand ++ " --target x86_64-unknown-linux-musl -x" }
  else if target = "aarch64-apple-darwin" then
    some { host := "macos-latest", target := "aarch64-apple-darwin",
           build := napiBuildCommand ++ " --target aarch64-apple-darwin" }
  else if target = "aarch64-unknown-linux-gnu" then
    some { host := "ubuntu-22.04", target := "aarch64-unknown-linux-gnu",
           build := napiBuildCommand ++ " --target aarch64-unknown-linux-gnu --use-cross" }
  else if target = "armv7-unknown-linux-gnueabihf" then
    some { host := "ubuntu-22.04", target := "armv7-unknown-linux-gnueabihf",
           build := napiBuildCommand ++ " --target armv7-unknown-linux-gnueabihf --use-cross" }
  else if target = "aarch64-linux-android" then
    some { host := "ubuntu-22.04", target := "aarch64-linux-android",
           build := napiBuildCommand ++ " --target aarch64-linux-android" }
  else if target = "armv7-linux-androideabi" then
    some { host := "ubuntu-22.04", target := "armv7-linux-androideabi",
           build := napiBuildCommand ++ " --target armv7-linux-androideabi" }
  else if target = "aarch64-unknown-linux-musl" then
    some { host := "ubuntu-22.04", target := "aarch64-unknown-linux-musl",
           build := napiBuildCommand ++ " --target aarch64-unknown-linux-musl -x" }
  else if target = "aarch64-pc-windows-msvc" then
    some { host := "windows-latest", target := "aarch64-pc-windows-msvc",
           build := napiBuildCommand ++ " --target aarch64-pc-windows-msvc" }
  else if target = "x86_64-unknown-freebsd" then
    some { host := "ubuntu-22.04", target := "x86_64-unknown-freebsd",
           build := napiBuildCommand ++ " --target x86_64-unknown-freebsd --use-cross" }
  else if target = "aarch64-unknown-freebsd" then
    some { host := "ubuntu-22.04", target := "aarch64-unknown-freebsd",
           build := napiBuildCommand ++ " --target aarch64-unknown-freebsd --use-cross -- -Zbuild-std=core,std,alloc,proc_macro,panic_abort" }
  else if target = "riscv64gc-unknown-linux-gnu" then
    some { host := "ubuntu-22.04", target := "riscv64gc-unknown-linux-gnu",
           build := napiBuildCommand ++ " --target riscv64gc-unknown-linux-gnu --use-cross" }
  else if target = "riscv64gc-unknown-linux-musl" then
    some { host := "ubuntu-22.04", target := "riscv64gc-unknown-linux-musl",
           build := napiBuildCommand ++ " --target riscv64gc-unknown-linux-musl --use-cross" }
  else
    none

/-- The sixteen identifiers that key the table, in source order. -/
def supportedTargets : List String :=
  ["x86_64-apple-darwin", "x86_64-pc-windows-msvc", "i686-pc-windows-msvc",
   "x86_64-unknown-linux-gnu", "x86_64-unknown-linux-musl", "aarch64-apple-darwin",
   "aarch64-unknown-linux-gnu", "armv7-unknown-linux-gnueabihf", "aarch64-linux-android",
   "armv7-linux-androideabi", "aarch64-unknown-linux-musl", "aarch64-pc-windows-msvc",
   "x86_64-unknown-freebsd", "aarch64-unknown-freebsd", "riscv64gc-unknown-linux-gnu",
   "riscv64gc-unknown-linux-musl"]

/-- The characters `String.prototype.trim` removes from both ends: the
ECMAScript WhiteSpace set (tab, line feed, vertical tab, form feed,
carriage return, space, no-break space, zero-width no-break space, and
the Unicode space-separator category) together with the LineTerminator
set (line feed, carriage return, line separator, paragraph separator). -/
def isJsSpace (c : Char) : Bool :=
  c = ' ' || c = '\t' || c = '\n' || c = '\r' || c = Char.ofNat 11 || c = Char.ofNat 12
    || c = Char.ofNat 0xA0 || c = Char.ofNat 0x1680
    || (0x2000 ≤ c.toNat && c.toNat ≤ 0x200A)
    || c = Char.ofNat 0x2028 || c = Char.ofNat 0x2029 || c = Char.ofNat 0x202F
    || c = Char.ofNat 0x205F || c = Char.ofNat 0x3000 || c = Char.ofNat 0xFEFF

/-- Translation of `target.trim().replace(/\r?\n|\r/g, '')`: trim
whitespace from both ends, then delete every remaining carriage return
and line feed (the regex matches each `\r\n`, lone `\n`, or lone `\r`,
and every match is replaced by the empty string). -/
def cleanTarget (t : String) : String :=
  String.mk ((((t.data.dropWhile isJsSpace).reverse.dropWhile isJsSpace).reverse).filter
    (fun c => !(c = '\n' || c = '\r')))

/-- The failure conditions of the action.  Each corresponds to one
`throw` site (or to an exception from a library call caught by the same
`catch`); any of them reaches `core.setFailed` and aborts before any
output is set. -/
inductive GenError where
  | manifestNotFound (path : String) : GenError
  | manifestParseError : GenError
  | noTargetsDeclared : GenError
  | elementNotAString : GenError
  | unsupportedTargets (ids : List String) : GenError
deriving DecidableEq, Repr

/-- Rendering of the offending list, as `Array.prototype.join(', ')`
does it at the throw site. -/
def joinCommaSpace : List String → String
  | [] => ""
  | [x] => x
  | x :: y :: rest => x ++ ", " ++ joinCommaSpace (y :: rest)

/-- The human-readable message of each failure, as built at the `throw`
sites.  `JSON.parse` failures and `.trim()`-on-non-string failures raise
engine-generated messages, summarised here by fixed placeholders. -/
def GenError.message : GenError → String
  | .manifestNotFound p => "Error: " ++ p ++ " not found"
  | .manifestParseError => "Unexpected token in JSON"
  | .noTargetsDeclared => "Error: No napi.targets found in package.json"
  | .elementNotAString => "target.trim is not a function"
  | .unsupportedTargets ids => "Error: Unsupported targets found: " ++ joinCommaSpace ids

/-- Translation of the extraction and shape check:
`const napiTargets = packageJson?.napi?.targets;` followed by
`if (!napiTargets || !Array.isArray(napiTargets) || napiTargets.length === 0) throw ...`.
A missing field (`undefined`), a falsy value, a non-array, and an empty
array all reach the same `throw`. -/
def extractTargets (pkg : Json) : Except GenError (List Json) :=
  match (pkg.getField "napi").bind (fun napi => napi.getField "targets") with
  | none => .error .noTargetsDeclared
  | some v =>
    if !jsTruthy v then .error .noTargetsDeclared
    else
      match v with
      | .arr elems => if elems.length = 0 then .error .noTargetsDeclared else .ok elems
      | _ => .error .noTargetsDeclared

/-- The loop calls `target.trim()` on each element; an element that is
not a string has no `trim` and raises a `TypeError` (caught by the same
`catch`, so the action still fails with no outputs).  `some` when every
element is a string. -/
def asStrings : List Json → Option (List String)
  | [] => some []
  | .str s :: rest => (asStrings rest).map (fun ss => s :: ss)
  | _ :: _ => none

/-- Translation of the `for (const target of napiTargets)` loop: each
identifier is cleaned and resolved; resolved configurations are pushed
onto `matrixItems` and unresolved (cleaned) identifiers onto
`unsupportedTargets`, both in visit order. -/
def processTargets : List String → String → List PlatformConfig × List String
  | [], _ => ([], [])
  | target :: rest, napiBuildCommand =>
    let r := processTargets rest napiBuildCommand
    match getPlatformConfig (cleanTarget target) napiBuildCommand with
    | some config => (config :: r.1, r.2)
    | none => (r.1, cleanTarget target :: r.2)

/-- Hexadecimal digit, lowercase, as produced by `JSON.stringify` in
`\u00xx` escapes. -/
def hexDigit (n : Nat) : Char :=
  if n < 10 then Char.ofNat (48 + n) else Char.ofNat (87 + n)

/-- Escaping of one character inside a `JSON.stringify` string literal. -/
def escChar (c : Char) : String :=
  if c = '"' then "\\\""
  else if c = '\\' then "\\\\"
  else if c = Char.ofNat 8 then "\\b"
  else if c = '\t' then "\\t"
  else if c = '\n' then "\\n"
  else if c = Char.ofNat 12 then "\\f"
  else if c = '\r' then "\\r"
  else if c.toNat < 32 then
    "\\u00" ++ String.mk [hexDigit (c.toNat / 16), hexDigit (c.toNat % 16)]
  else String.mk [c]

/-- Serialization of a string value, as `JSON.stringify` renders it. -/
def stringifyString (s : String) : String :=
  "\"" ++ s.data.foldr (fun c acc => escChar c ++ acc) "" ++ "\""

/-- Joining of already-rendered pieces with bare commas, as
`JSON.stringify` separates array elements and object fields. -/
def joinComma : List String → String
  | [] => ""
  | [x] => x
  | x :: y :: rest => x ++ "," ++ joinComma (y :: rest)

/-- Serialization of one matrix row `{host, target, build}` (object
literal fields are stringified in insertion order, no spaces). -/
def stringifyConfig (c : PlatformConfig) : String :=
  "\x7b\"host\":" ++ stringifyString c.host
    ++ ",\"target\":" ++ stringifyString c.target
    ++ ",\"build\":" ++ stringifyString c.build ++ "\x7d"

/-- Serialization of the whole plan, `JSON.stringify({ settings: matrixItems })`. -/
def stringifyMatrix (items : List PlatformConfig) : String :=
  "\x7b\"settings\":[" ++ joinComma (items.map stringifyConfig) ++ "]\x7d"

/-- Serialization `JSON.stringify(napiTargets)` of the raw declared list. -/
def stringifyStringList (xs : List String) : String :=
  "[" ++ joinComma (xs.map stringifyString) ++ "]"

/-- The index-scanning loop of Node's POSIX `path.dirname`: walk from the
given index down to index 1, skipping trailing slashes, and return the
index of the slash that separates the directory part from the base name
(`none` when no such slash exists). -/
def findDirEnd (cs : List Char) : Nat → Bool → Option Nat
  | 0, _ => none
  | i + 1, matchedSlash =>
    if h : i + 1 < cs.length then
      if cs.get ⟨i + 1, h⟩ = '/' then
        if matchedSlash then findDirEnd cs i true else some (i + 1)
      else findDirEnd cs i false
    else findDirEnd cs i matchedSlash

/-- Node's POSIX `path.dirname`, called as
`path.dirname(packageJsonPath)` to compute the binding directory. -/
def dirname (p : String) : String :=
  let cs := p.data
  if cs.length = 0 then "."
  else
    match findDirEnd cs (cs.length - 1) true with
    | none => if cs.head? = some '/' then "/" else "."
    | some e => if cs.head? = some '/' ∧ e = 1 then "//" else String.mk (cs.take e)

/-- The three outputs set through `core.setOutput` on success:
`matrix` and `targets` are serialized JSON strings, `binding-directory`
is the directory of the manifest path. -/
structure ActionOutputs where
  matrix : String
  targets : String
  bindingDirectory : String
deriving DecidableEq, Repr

/-- Translation of the exported `action`.  The two external effects are
passed in as their results: `fileExists` is `fs.existsSync(packageJsonPath)`
and `parsed` is the outcome of `JSON.parse` on the file contents (`none`
for a parse failure).  Every failure path throws before any
`core.setOutput` call, so the result is either an error or all three
outputs. -/
def action (fileExists : Bool) (packageJsonPath : String) (parsed : Option Json)
    (napiBuildCommand : String) : Except GenError ActionOutputs :=
  if fileExists = false then .error (.manifestNotFound packageJsonPath)
  else
    match parsed with
    | none => .error .manifestParseError
    | some packageJson =>
      match extractTargets packageJson with
      | .error e => .error e
      | .ok elems =>
        match asStrings elems with
        | none => .error .elementNotAString
        | some napiTargets =>
          let r := processTargets napiTargets napiBuildCommand
          if r.2.length > 0 then .error (.unsupportedTargets r.2)
          else .ok { matrix := stringifyMatrix r.1,
                     targets := stringifyStringList napiTargets,
                     bindingDirectory := dirname packageJsonPath }

/-- The own property names of `Object.prototype` in Node, the prototype
of the `configs` object literal.  JavaScript bracket access falls back
to these when the key is not an own key of the literal. -/
def objectPrototypeKeys : List String :=
  ["constructor", "__defineGetter__", "__defineSetter__", "hasOwnProperty",
   "__lookupGetter__", "__lookupSetter__", "isPrototypeOf", "propertyIsEnumerable",
   "toString", "valueOf", "__proto__", "toLocaleString"]

/-- The value of `configs[target] || null` under JavaScript semantics:
an own key yields its row; a key the literal lacks is looked up on the
prototype chain, so the twelve `Object.prototype` member names yield
that inherited member — a function (or, for `__proto__`, the
`Object.prototype` object itself), truthy, which `|| null` passes
through unchanged — and every other key yields `undefined`, which
`|| null` turns into `null`. -/
inductive JsLookupResult where
  | config (c : PlatformConfig) : JsLookupResult
  | protoMember (name : String) : JsLookupResult
  | nullv : JsLookupResult
deriving DecidableEq, Repr

/-- Translation of `return configs[target] || null` with the prototype
chain kept: `getPlatformConfig` is the own-property portion and the
fallback covers the inherited names. -/
def getPlatformConfigJs (target : String) (napiBuildCommand : String) : JsLookupResult :=
  match getPlatformConfig target napiBuildCommand with
  | some c => .config c
  | none =>
    if target ∈ objectPrototypeKeys then .protoMember target else .nullv

/-- One element pushed onto `matrixItems`: normally a table row, but a
prototype-chain hit pushes the inherited member itself, since
`if (config)` only tests truthiness. -/
inductive MatrixItemJs where
  | config (c : PlatformConfig) : MatrixItemJs
  | protoMember (name : String) : MatrixItemJs
deriving DecidableEq, Repr

/-- The `for (const target of napiTargets)` loop with JavaScript lookup
semantics: every truthy lookup — a table row or an inherited
`Object.prototype` member — is pushed as resolved; only a `null` lookup
adds the cleaned identifier to `unsupportedTargets`. -/
def processTargetsJs : List String → String → List MatrixItemJs × List String
  | [], _ => ([], [])
  | target :: rest, napiBuildCommand =>
    let r := processTargetsJs rest napiBuildCommand
    match getPlatformConfigJs (cleanTarget target) napiBuildCommand with
    | .config c => (.config c :: r.1, r.2)
    | .protoMember name => (.protoMember name :: r.1, r.2)
    | .nullv => (r.1, cleanTarget target :: r.2)

/-- Serialization of one pushed element: `JSON.stringify` renders a
function inside an array as `null`, and `__proto__` — the bare
`Object.prototype` object, which has no own enumerable properties — as
an empty object. -/
def stringifyMatrixItemJs : MatrixItemJs → String
  | .config c => stringifyConfig c
  | .protoMember name => if name = "__proto__" then "\x7b\x7d" else "null"

/-- Serialization `JSON.stringify({ settings: matrixItems })` when the
items may include inherited members. -/
def stringifyMatrixJs (items : List MatrixItemJs) : String :=
  "\x7b\"settings\":[" ++ joinComma (items.map stringifyMatrixItemJs) ++ "]\x7d"

/-- The exported `action` with the JavaScript semantics of
`configs[target] || null` kept (prototype-chain fallback included);
everywhere else identical to `action`. -/
def actionJs (fileExists : Bool) (packageJsonPath : String) (parsed : Option Json)
    (napiBuildCommand : String) : Except GenError ActionOutputs :=
  if fileExists = false then .error (.manifestNotFound packageJsonPath)
  else
    match parsed with
    | none => .error .manifestParseError
    | some packageJson =>
      match extractTargets packageJson with
      | .error e => .error e
      | .ok elems =>
        match asStrings elems with
        | none => .error .elementNotAString
        | some napiTargets =>
          let r := processTargetsJs napiTargets napiBuildCommand
          if r.2.length > 0 then .error (.unsupportedTargets r.2)
          else .ok { matrix := stringifyMatrixJs r.1,
                     targets := stringifyStringList napiTargets,
                     bindingDirectory := dirname packageJsonPath }

/-- Manifest declaring the single identifier `"toString"`, a name with
no table row but present on `Object.prototype`. -/
def pkgToString : Json :=
  Json.obj [("napi", Json.obj [("targets", Json.arr [Json.str "toString"])])]

/-- Manifest declaring `["bogus", "toString"]`: neither has a table
row, but only `"bogus"` also misses the prototype chain. -/
def pkgBogusToString : Json :=
  Json.obj [("napi", Json.obj [("targets",
    Json.arr [Json.str "bogus", Json.str "toString"])])]

/-- The resolved side of the loop: `matrixItems` collects, in visit
order, the configuration of every identifier the table resolves. -/
theorem processTargets_fst (ts : List String) (cmd : String) :
    (processTargets ts cmd).1 = ts.filterMap (fun t => getPlatformConfig (cleanTarget t) cmd) := by
  induction ts with
  | nil => rfl
  | cons t rest ih =>
    cases h : getPlatformConfig (cleanTarget t) cmd with
    | none => simp [processTargets, h, ih, List.filterMap_cons]
    | some c => simp [processTargets, h, ih, List.filterMap_cons]

/-- The unresolved side of the loop: `unsupportedTargets` collects, in
visit order, the cleaned identifier of every declared entry the table
does not resolve. -/
theorem processTargets_snd (ts : List String) (cmd : String) :
    (processTargets ts cmd).2
      = (ts.filter (fun t => (getPlatformConfig (cleanTarget t) cmd).isNone)).map cleanTarget := by
  induction ts with
  | nil => rfl
  | cons t rest ih =>
    cases h : getPlatformConfig (cleanTarget t) cmd with
    | none => simp [processTargets, h, ih, List.filter_cons]
    | some c => simp [processTargets, h, ih, List.filter_cons]

/-- An identifier outside the sixteen table keys falls through every
branch of the lookup. -/
theorem getPlatformConfig_eq_none (t cmd : String) (h : t ∉ supportedTargets) :
    getPlatformConfig t cmd = none := by
  simp only [supportedTargets, List.mem_cons, List.not_mem_nil, or_false, not_or] at h
  obtain ⟨h1, h2, h3, h4, h5, h6, h7, h8, h9, h10, h11, h12, h13, h14, h15, h16⟩ := h
  simp [getPlatformConfig, h1, h2, h3, h4, h5, h6, h7, h8, h9, h10, h11, h12, h13, h14, h15, h16]

set_option maxRecDepth 10000 in
/-- C1 fails on the program: `"toString"` has no Registry row (the
own-table lookup is `none`), yet the manifest declaring only
`"toString"` succeeds — bracket access finds the inherited, truthy
`Object.prototype.toString`, the `if (config)` test passes, nothing is
collected as unsupported, and all three outputs are emitted, the matrix
serializing the function as `null`.  The spec's atomicity invariant and
the lookup's own doc comment (`null if unsupported`) state the intent;
the emitted `settings` row is unusable downstream, so the defect is in
the code, not the claim. -/
theorem prototype_key_breaks_atomicity :
    getPlatformConfig "toString" "pnpm build" = none
    ∧ actionJs true "crates/binding/package.json" (some pkgToString) "pnpm build"
        = Except.ok { matrix := "\x7b\"settings\":[null]\x7d",
                      targets := "[\"toString\"]",
                      bindingDirectory := "crates/binding" } :=
  ⟨rfl, rfl⟩

set_option maxRecDepth 10000 in
/-- C2 fails on the program: with declared identifiers
`["bogus", "toString"]` — neither of which has a Registry row — the
failure reports only `bogus`.  `"toString"` resolves through the
prototype chain, is treated as supported, and is never collected, so
the message does not carry the complete set of identifiers without a
Registry Entry.  The aggregation itself (visit every identifier,
collect every `null` lookup in order) is real; the hole is the lookup's
prototype leak. -/
theorem prototype_key_escapes_aggregation :
    getPlatformConfig "toString" "pnpm build" = none
    ∧ actionJs true "crates/binding/package.json" (some pkgBogusToString) "pnpm build"
        = Except.error (GenError.unsupportedTargets ["bogus"])
    ∧ (GenError.unsupportedTargets ["bogus"]).message
        = "Error: Unsupported targets found: bogus" :=
  ⟨rfl, rfl, rfl⟩

/-- Manifest of the end-to-end example: the two Apple targets. -/
def pkgTwoMac : Json :=
  Json.obj [("napi", Json.obj [("targets",
    Json.arr [Json.str "x86_64-apple-darwin", Json.str "aarch64-apple-darwin"])])]

set_option maxRecDepth 10000 in
/-- C3: manifest targets `["x86_64-apple-darwin", "aarch64-apple-darwin"]`
with base command `"pnpm build --release"` succeed, and the emitted
matrix, raw-targets list and binding directory are exactly the spec's
end-to-end example. -/
theorem end_to_end_two_mac_targets :
    action true "crates/binding/package.json" (some pkgTwoMac) "pnpm build --release"
      = Except.ok
          { matrix := "\x7b\"settings\":[\x7b\"host\":\"macos-latest\",\"target\":\"x86_64-apple-darwin\",\"build\":\"pnpm build --release --target x86_64-apple-darwin\"\x7d,\x7b\"host\":\"macos-latest\",\"target\":\"aarch64-apple-darwin\",\"build\":\"pnpm build --release --target aarch64-apple-darwin\"\x7d]\x7d",
            targets := "[\"x86_64-apple-darwin\",\"aarch64-apple-darwin\"]",
            bindingDirectory := "crates/binding" } := rfl

/-- C4: on success (no unresolved identifier), the plan has exactly one
entry per declared identifier, in declared order — entry `i` is the
resolution of identifier `i`, so duplicates are kept and nothing is
reordered. -/
theorem plan_preserves_order_and_multiplicity
    (ts : List String) (cmd : String)
    (hok : (processTargets ts cmd).2 = []) :
    (processTargets ts cmd).1.map some
        = ts.map (fun t => getPlatformConfig (cleanTarget t) cmd)
    ∧ (processTargets ts cmd).1.length = ts.length := by
  induction ts with
  | nil => exact ⟨rfl, rfl⟩
  | cons t rest ih =>
    cases h : getPlatformConfig (cleanTarget t) cmd with
    | none =>
      exfalso
      have hcons : (processTargets (t :: rest) cmd).2
          = cleanTarget t :: (processTargets rest cmd).2 := by
        simp [processTargets, h]
      rw [hcons] at hok
      exact List.cons_ne_nil _ _ hok
    | some c =>
      have h2 : (processTargets (t :: rest) cmd).2 = (processTargets rest cmd).2 := by
        simp [processTargets, h]
      have h1 : (processTargets (t :: rest) cmd).1 = c :: (processTargets rest cmd).1 := by
        simp [processTargets, h]
      rw [h2] at hok
      obtain ⟨ihm, ihl⟩ := ih hok
      refine ⟨?_, ?_⟩
      · rw [h1, List.map_cons, List.map_cons, ihm, h]
      · rw [h1, List.length_cons, List.length_cons, ihl]

/-- Closed instance of C4: a declared list with a duplicated identifier
yields a two-entry plan aligned with the two occurrences. -/
theorem plan_preserves_order_and_multiplicity_witness :
    (processTargets ["x86_64-apple-darwin", "x86_64-apple-darwin"] "pnpm build").1.map some
        = ["x86_64-apple-darwin", "x86_64-apple-darwin"].map
            (fun t => getPlatformConfig (cleanTarget t) "pnpm build")
    ∧ (processTargets ["x86_64-apple-darwin", "x86_64-apple-darwin"] "pnpm build").1.length
        = (["x86_64-apple-darwin", "x86_64-apple-darwin"] : List String).length :=
  plan_preserves_order_and_multiplicity ["x86_64-apple-darwin", "x86_64-apple-darwin"]
    "pnpm build" rfl

/-- C5: resolving `"x86_64-unknown-linux-gnu"` composes the invocation
`"<base> --target x86_64-unknown-linux-gnu --use-napi-cross"` (exactly
that string for base `"pnpm build"`), and every table entry's invocation
is the base command, then ` --target <identifier>`, then that
identifier's fixed suffix flags. -/
theorem build_invocation_flag_composition :
    (∀ cmd, getPlatformConfig "x86_64-unknown-linux-gnu" cmd
        = some { host := "ubuntu-22.04", target := "x86_64-unknown-linux-gnu",
                 build := cmd ++ " --target x86_64-unknown-linux-gnu --use-napi-cross" })
    ∧ getPlatformConfig "x86_64-unknown-linux-gnu" "pnpm build"
        = some { host := "ubuntu-22.04", target := "x86_64-unknown-linux-gnu",
                 build := "pnpm build --target x86_64-unknown-linux-gnu --use-napi-cross" }
    ∧ (∀ t cmd e, getPlatformConfig t cmd = some e →
        ∃ suffix, e.build = cmd ++ (" --target " ++ (t ++ suffix))) := by
  refine ⟨fun cmd => rfl, rfl, ?_⟩
  intro t cmd e h
  have hmem : t ∈ supportedTargets := by
    by_contra hnot
    rw [getPlatformConfig_eq_none t cmd hnot] at h
    cases h
  simp only [supportedTargets] at hmem
  fin_cases hmem
  · cases Option.some.inj h; exact ⟨"", rfl⟩
  · cases Option.some.inj h; exact ⟨"", rfl⟩
  · cases Option.some.inj h; exact ⟨"", rfl⟩
  · cases Option.some.inj h; exact ⟨" --use-napi-cross", rfl⟩
  · cases Option.some.inj h; exact ⟨" -x", rfl⟩
  · cases Option.some.inj h; exact ⟨"", rfl⟩
  · cases Option.some.inj h; exact ⟨" --use-cross", rfl⟩
  · cases Option.some.inj h; exact ⟨" --use-cross", rfl⟩
  · cases Option.some.inj h; exact ⟨"", rfl⟩
  · cases Option.some.inj h; exact ⟨"", rfl⟩
  · cases Option.some.inj h; exact ⟨" -x", rfl⟩
  · cases Option.some.inj h; exact ⟨"", rfl⟩
  · cases Option.some.inj h; exact ⟨" --use-cross", rfl⟩
  · cases Option.some.inj h
    exact ⟨" --use-cross -- -Zbuild-std=core,std,alloc,proc_macro,panic_abort", rfl⟩
  · cases Option.some.inj h; exact ⟨" --use-cross", rfl⟩
  · cases Option.some.inj h; exact ⟨" --use-cross", rfl⟩

/-- C6: cleaning strips surrounding whitespace and every line
terminator, so `"x86_64-apple-darwin\n"` resolves to the very same entry
as `"x86_64-apple-darwin"`, and no cleaned identifier retains a line
feed or carriage return. -/
theorem trimmed_identifier_resolves_identically :
    cleanTarget "x86_64-apple-darwin\n" = cleanTarget "x86_64-apple-darwin"
    ∧ (∀ cmd, getPlatformConfig (cleanTarget "x86_64-apple-darwin\n") cmd
        = getPlatformConfig "x86_64-apple-darwin" cmd)
    ∧ (∀ t, '\n' ∉ (cleanTarget t).data ∧ '\r' ∉ (cleanTarget t).data) := by
  refine ⟨rfl, fun cmd => rfl, ?_⟩
  intro t
  constructor <;> simp [cleanTarget, List.mem_filter]

/-- C7 fails on the program: `configs[target] || null` returns the
inherited member, not `null`, for the twelve `Object.prototype` names,
contradicting the function's own doc comment (`null if unsupported`).
Evaluated here at `"toString"`, `"constructor"` and `"__proto__"`, none
of which has a table row; a key missing from both the table and the
prototype, such as `"wasm32-wasip1-threads"`, does produce `null`.
(Determinism and purity do hold: the embedding is a total function of
its two arguments.) -/
theorem prototype_key_lookup_not_null :
    getPlatformConfig "toString" "pnpm build" = none
    ∧ getPlatformConfigJs "toString" "pnpm build" = JsLookupResult.protoMember "toString"
    ∧ getPlatformConfig "constructor" "pnpm build" = none
    ∧ getPlatformConfigJs "constructor" "pnpm build" = JsLookupResult.protoMember "constructor"
    ∧ getPlatformConfig "__proto__" "pnpm build" = none
    ∧ getPlatformConfigJs "__proto__" "pnpm build" = JsLookupResult.protoMember "__proto__"
    ∧ getPlatformConfigJs "wasm32-wasip1-threads" "pnpm build" = JsLookupResult.nullv :=
  ⟨rfl, rfl, rfl, rfl, rfl, rfl, rfl⟩

/-- Manifest whose `napi` object has no `targets` key. -/
def pkgNoTargetsKey : Json := Json.obj [("napi", Json.obj [])]

/-- C8: a parsed manifest whose targets field is missing, not a list, or
an empty list fails with `NoTargetsDeclared` (no crash); in particular
`{"napi": {}}` does, and that condition is distinct from the
unsupported-target failure. -/
theorem missing_targets_yields_no_targets_declared :
    (∀ path cmd, action true path (some pkgNoTargetsKey) cmd
        = Except.error GenError.noTargetsDeclared)
    ∧ (∀ pkg, (pkg.getField "napi").bind (fun napi => napi.getField "targets") = none →
        extractTargets pkg = Except.error GenError.noTargetsDeclared)
    ∧ (∀ pkg v, (pkg.getField "napi").bind (fun napi => napi.getField "targets") = some v →
        (∀ elems, v ≠ Json.arr elems) →
        extractTargets pkg = Except.error GenError.noTargetsDeclared)
    ∧ (∀ pkg, (pkg.getField "napi").bind (fun napi => napi.getField "targets")
          = some (Json.arr []) →
        extractTargets pkg = Except.error GenError.noTargetsDeclared)
    ∧ (∀ ids, GenError.noTargetsDeclared ≠ GenError.unsupportedTargets ids) := by
  refine ⟨fun path cmd => rfl, ?_, ?_, ?_, fun ids h => GenError.noConfusion h⟩
  · intro pkg h
    simp [extractTargets, h]
  · intro pkg v h hv
    simp only [extractTargets, h]
    cases v with
    | arr elems => exact absurd rfl (hv elems)
    | null => exact ite_self _
    | bool b => exact ite_self _
    | num n => exact ite_self _
    | str s => exact ite_self _
    | obj fields => exact ite_self _
  · intro pkg h
    simp [extractTargets, h, jsTruthy]

/-- C9: every success reports, alongside the plan built from the cleaned
identifiers, the declared list serialized verbatim (untrimmed), and the
directory portion of the manifest path. -/
theorem success_outputs_verbatim_targets_and_dir
    (fileExists : Bool) (path cmd : String) (parsed : Option Json) (out : ActionOutputs)
    (h : action fileExists path parsed cmd = Except.ok out) :
    (∃ pkg elems napiTargets,
        parsed = some pkg
        ∧ extractTargets pkg = Except.ok elems
        ∧ asStrings elems = some napiTargets
        ∧ out.targets = stringifyStringList napiTargets
        ∧ out.matrix = stringifyMatrix (processTargets napiTargets cmd).1)
    ∧ out.bindingDirectory = dirname path := by
  cases fileExists with
  | false => simp [action] at h
  | true =>
    cases parsed with
    | none => simp [action] at h
    | some pkg =>
      cases hex : extractTargets pkg with
      | error e => simp [action, hex] at h
      | ok elems =>
        cases hstr : asStrings elems with
        | none => simp [action, hex, hstr] at h
        | some napiTargets =>
          by_cases hlen : (processTargets napiTargets cmd).2.length > 0
          · simp [action, hex, hstr, hlen] at h
          · simp only [action, hex, hstr, hlen] at h
            simp only [Bool.true_eq_false, if_false, if_neg hlen] at h
            rw [Except.ok.injEq] at h
            subst h
            exact ⟨⟨pkg, elems, napiTargets, rfl, hex, hstr, rfl, rfl⟩, rfl⟩

/-- Manifest declaring the single identifier `"x86_64-apple-darwin\n"`,
a trailing line feed included. -/
def pkgUntrimmed : Json :=
  Json.obj [("napi", Json.obj [("targets", Json.arr [Json.str "x86_64-apple-darwin\n"])])]

/-- The outputs for `pkgUntrimmed` at path `a/b/package.json` with base
command `pnpm build`: the raw-targets output keeps the line feed the
plan entry was cleaned of. -/
def outUntrimmed : ActionOutputs :=
  { matrix := "\x7b\"settings\":[\x7b\"host\":\"macos-latest\",\"target\":\"x86_64-apple-darwin\",\"build\":\"pnpm build --target x86_64-apple-darwin\"\x7d]\x7d",
    targets := "[\"x86_64-apple-darwin\\n\"]",
    bindingDirectory := "a/b" }

set_option maxRecDepth 10000 in
/-- Closed instance of C9: the declared identifier carries a trailing
line feed, the raw-targets output keeps it verbatim, and the binding
directory is the directory of the manifest path. -/
theorem success_outputs_verbatim_targets_and_dir_witness :
    (∃ pkg elems napiTargets,
        (some pkgUntrimmed : Option Json) = some pkg
        ∧ extractTargets pkg = Except.ok elems
        ∧ asStrings elems = some napiTargets
        ∧ outUntrimmed.targets = stringifyStringList napiTargets
        ∧ outUntrimmed.matrix = stringifyMatrix (processTargets napiTargets "pnpm build").1)
    ∧ outUntrimmed.bindingDirectory = dirname "a/b/package.json" :=
  success_outputs_verbatim_targets_and_dir true "a/b/package.json" "pnpm build"
    (some pkgUntrimmed) outUntrimmed rfl

/-- C10: every table entry names one of the three hosts
(`macos-latest`, `windows-latest`, `ubuntu-22.04`) and echoes the lookup
key in its `target` field, whatever the base build command. -/
theorem registry_entry_host_and_target (t cmd : String) (h : t ∈ supportedTargets) :
    ∃ e, getPlatformConfig t cmd = some e
      ∧ (e.host = "macos-latest" ∨ e.host = "windows-latest" ∨ e.host = "ubuntu-22.04")
      ∧ e.target = t := by
  simp only [supportedTargets] at h
  fin_cases h <;> exact ⟨_, rfl, by simp, rfl⟩

/-- Closed instance of C10 at the last table row. -/
theorem registry_entry_host_and_target_witness :
    ∃ e, getPlatformConfig "riscv64gc-unknown-linux-musl" "pnpm build" = some e
      ∧ (e.host = "macos-latest" ∨ e.host = "windows-latest" ∨ e.host = "ubuntu-22.04")
      ∧ e.target = "riscv64gc-unknown-linux-musl" :=
  registry_entry_host_and_target "riscv64gc-unknown-linux-musl" "pnpm build" (by decide)

/-- Closed instance of C5's composition rule at the FreeBSD row, the one
with build-std suffix flags. -/
theorem build_invocation_flag_composition_witness :
    ∃ suffix,
      "pnpm build --target aarch64-unknown-freebsd --use-cross -- -Zbuild-std=core,std,alloc,proc_macro,panic_abort"
        = "pnpm build" ++ (" --target " ++ ("aarch64-unknown-freebsd" ++ suffix)) :=
  build_invocation_flag_composition.2.2 "aarch64-unknown-freebsd" "pnpm build"
    { host := "ubuntu-22.04", target := "aarch64-unknown-freebsd",
      build := "pnpm build --target aarch64-unknown-freebsd --use-cross -- -Zbuild-std=core,std,alloc,proc_macro,panic_abort" }
    rfl

/-- Closed instance of C6 at the spec's example identifier. -/
theorem trimmed_identifier_resolves_identically_witness :
    cleanTarget "x86_64-apple-darwin\n" = cleanTarget "x86_64-apple-darwin"
    ∧ '\n' ∉ (cleanTarget "x86_64-apple-darwin\n").data :=
  ⟨trimmed_identifier_resolves_identically.1,
   (trimmed_identifier_resolves_identically.2.2 "x86_64-apple-darwin\n").1⟩

/-- Closed instance of C8: a manifest with no `napi` object at all. -/
theorem missing_targets_yields_no_targets_declared_witness :
    extractTargets (Json.obj []) = Except.error GenError.noTargetsDeclared :=
  missing_targets_yields_no_targets_declared.2.1 (Json.obj []) rfl
